import Mathlib

/-!
Shallow embedding of the request-processing state machine of
`src/bin/varnishd/cache/cache_center.c` (varnish-cache).

Each `cnt_*` step handler is translated into a pure Lean function over an
explicit input record.  External collaborators (HTTP parser, poll, VCL hooks,
hash layer, storage allocator, backend fetch, clock) are modelled as inputs:
their return values are fields of the input record, and the effects the
handler performs on them (log records written, close reasons, stream calls)
are fields of the output record.  Machine integers that can be negative
(status codes returned by `HTC_Complete`, `poll`, file descriptors) are `Int`;
counters and lengths are `Nat`; nullable pointers are `Option`.
-/

namespace CacheCenter

/-- The state tags of the central state machine (`steps.h` table). -/
inductive Step where
  | first | wait | start | recv | lookup | hit | miss | pass | pipe
  | fetch | fetchbody | streambody | prepresp | deliver | error | done
deriving DecidableEq, Repr

/-- VCL hook return values (`VCL_RET_*`). -/
inductive Handling where
  | lookup | hash | hitForPass | deliver | fetch | pass | pipe | restart | error
deriving DecidableEq, Repr

/-- What a step handler does next: keep running at a step, release the
session (park, close, transfer), or hit a `WRONG`/`INCOMPL` assertion. -/
inductive Next where
  | release
  | toStep (s : Step)
  | abort
deriving DecidableEq, Repr

/-! ## Content-encoding negotiation in `cnt_fetchbody` (lines 736-782, 830-832)

The backend `Content-Encoding` header is classified three ways by the code
(comment at lines 727-733): exactly `gzip`, absent, or anything else.  The
negotiation only ever rewrites the header to one of these classes (it either
removes it or sets it to exactly `gzip`), so the class is the faithful state. -/

/-- Classification of the backend `Content-Encoding` header. -/
inductive CE where
  | gzip   -- header present with value `gzip`
  | absent -- no header
  | other  -- header present with any other value
deriving DecidableEq, Repr, Fintype

/-- Body filters installable in `busyobj->vfp`. -/
inductive VFP where
  | esi | gunzip | gzip | testgzip
deriving DecidableEq, Repr, Fintype

/-- State read and written by the encoding negotiation: the
`http_gzip_support` parameter, the `do_gzip`/`do_gunzip`/`do_esi` flags on the
busy object, the backend `Content-Encoding` class, and the currently
installed body filter (`none` = no filter installed, i.e. passthrough). -/
structure NegoState where
  gzipSupport : Bool
  doGzip : Bool
  doGunzip : Bool
  doEsi : Bool
  ce : CE
  vfp : Option VFP
deriving DecidableEq, Repr, Fintype

/-- The encoding negotiation of `cnt_fetchbody`, lines 736-777, together with
the `gziped` object flag computed at lines 830-832.  Returns the state after
the run and the `gziped` flag stored on the object.

Translation notes: line 737-738 zeroes both hints when gzip support is off;
lines 740-744 classify `is_gzip` / `is_gunzip` from the header; line 750-751
drops `do_gunzip` unless the body is gzipped; line 754-755 removes the
`Content-Encoding` header when gunzipping; line 758-759 drops `do_gzip`
unless the body is plain; line 762-764 sets `Content-Encoding: gzip` when
gzipping; lines 770-777 install the filter, leaving `vfp` untouched when no
branch matches; lines 830-832 set `gziped` when `do_gzip` or
(`is_gzip` and not `do_gunzip`). -/
def gzipNego (s : NegoState) : NegoState × Bool :=
  let dg0 := s.gzipSupport && s.doGzip
  let dug0 := s.gzipSupport && s.doGunzip
  let isGz := s.ce == CE.gzip
  let isUn := s.ce == CE.absent
  let dug1 := dug0 && isGz
  let ce1 := if dug1 then CE.absent else s.ce
  let dg1 := dg0 && isUn
  let ce2 := if dg1 then CE.gzip else ce1
  let vfp1 :=
    if s.doEsi then some VFP.esi
    else if dug1 then some VFP.gunzip
    else if dg1 then some VFP.gzip
    else if isGz then some VFP.testgzip
    else s.vfp
  let gziped := dg1 || (isGz && !dug1)
  ({ s with doGzip := dg1, doGunzip := dug1, ce := ce2, vfp := vfp1 }, gziped)

/-- Claim C1: with `http_gzip_support` enabled (and outside ESI mode, which
overrides the filter), the filter chosen by `cnt_fetchbody` and the stored
representation follow the spec table: backend `Content-Encoding: gzip` with
`do_gunzip` selects the gunzip filter and stores plain; `gzip` without
`do_gunzip` selects testgzip and stores gzip; absent `Content-Encoding` with
`do_gzip` selects the gzip filter and stores gzip; absent without `do_gzip`
selects passthrough (no filter) and stores plain; any other
`Content-Encoding` selects passthrough and leaves the `gziped` flag clear.
The `gziped` flag is set exactly in the two rows whose stored representation
is gzip. -/
theorem fetchbody_encoding_table :
    ∀ (dg dug : Bool) (ce : CE),
      (ce = CE.gzip → dug = true →
        (gzipNego ⟨true, dg, dug, false, ce, none⟩).1.vfp = some VFP.gunzip ∧
        (gzipNego ⟨true, dg, dug, false, ce, none⟩).2 = false) ∧
      (ce = CE.gzip → dug = false →
        (gzipNego ⟨true, dg, dug, false, ce, none⟩).1.vfp = some VFP.testgzip ∧
        (gzipNego ⟨true, dg, dug, false, ce, none⟩).2 = true) ∧
      (ce = CE.absent → dg = true →
        (gzipNego ⟨true, dg, dug, false, ce, none⟩).1.vfp = some VFP.gzip ∧
        (gzipNego ⟨true, dg, dug, false, ce, none⟩).2 = true) ∧
      (ce = CE.absent → dg = false →
        (gzipNego ⟨true, dg, dug, false, ce, none⟩).1.vfp = none ∧
        (gzipNego ⟨true, dg, dug, false, ce, none⟩).2 = false) ∧
      (ce = CE.other →
        (gzipNego ⟨true, dg, dug, false, ce, none⟩).1.vfp = none ∧
        (gzipNego ⟨true, dg, dug, false, ce, none⟩).2 = false) := by
  decide

/-- Witness for C1: the first table row evaluated at a concrete input. -/
theorem fetchbody_encoding_table_witness :
    (gzipNego ⟨true, false, true, false, CE.gzip, none⟩).1.vfp = some VFP.gunzip ∧
    (gzipNego ⟨true, false, true, false, CE.gzip, none⟩).2 = false :=
  (fetchbody_encoding_table false true CE.gzip).1 rfl rfl

/-- Counterexample for claim C6: the negotiation is not idempotent in the
chosen filter.  Starting from gzip support on, `do_gzip` hinted, no backend
`Content-Encoding`: the first run selects the gzip filter and rewrites the
header to `Content-Encoding: gzip`; running the negotiation again on the
produced state selects the testgzip filter instead, because the object now
arrives classified as gzipped.  (The stored-representation flag agrees.) -/
theorem gzip_nego_twice_filter_cx :
    (gzipNego ⟨true, true, false, false, CE.absent, none⟩).1.vfp = some VFP.gzip ∧
    (gzipNego (gzipNego ⟨true, true, false, false, CE.absent, none⟩).1).1.vfp =
      some VFP.testgzip ∧
    (gzipNego (gzipNego ⟨true, true, false, false, CE.absent, none⟩).1).1.vfp ≠
      (gzipNego ⟨true, true, false, false, CE.absent, none⟩).1.vfp := by
  decide

set_option maxRecDepth 8192 in
/-- Claim C6 (amended): running the encoding negotiation a second time on the
state produced by the first run yields the same stored-representation
(`gziped`) flag as the first run, for every input state; the chosen filter,
however, need not be preserved (see the counterexample: a first run that
chooses the gzip filter is followed by testgzip). -/
theorem gzip_nego_gziped_idem :
    ∀ s : NegoState, (gzipNego (gzipNego s).1).2 = (gzipNego s).2 := by
  decide

/-! ## Response-mode framing in `cnt_prepresp` (lines 185-232) -/

/-- The `wrk->res_mode` bitset (`RES_LEN`, `RES_CHUNKED`, `RES_EOF`,
`RES_ESI`, `RES_ESI_CHILD`, `RES_GUNZIP`), one Bool per bit. -/
structure ResMode where
  len : Bool
  chunked : Bool
  eof : Bool
  esi : Bool
  esiChild : Bool
  gunzip : Bool
deriving DecidableEq, Repr

/-- The all-clear bitset, `wrk->res_mode = 0` (line 185). -/
def emptyRes : ResMode := ⟨false, false, false, false, false, false⟩

/-- Fields of `wrk->busyobj` read by the framing decision. -/
structure BusyInfo where
  doStream : Bool
  doGzip : Bool
  doGunzip : Bool
deriving DecidableEq, Repr

/-- Inputs of the framing decision of `cnt_prepresp`. -/
structure PrepIn where
  busy : Option BusyInfo    -- wrk->busyobj
  hContentLength : Bool     -- wrk->h_content_length != NULL
  disableEsi : Bool         -- sp->disable_esi
  esidata : Bool            -- wrk->obj->esidata != NULL
  esiLevel : Nat            -- sp->esi_level
  gzipSupport : Bool        -- cache_param->http_gzip_support
  objGziped : Bool          -- wrk->obj->gziped
  reqGzip : Bool            -- RFC2616_Req_Gzip(sp)
  objLen : Nat              -- wrk->obj->len
  wantbody : Bool           -- sp->wantbody
  protover : Nat            -- sp->http->protover
  doclose : Option String   -- sp->doclose
deriving DecidableEq, Repr

/-- Rule at lines 187-188: no busy object means the stored length is known. -/
def ruleNoBusy (i : PrepIn) (m : ResMode) : ResMode :=
  if i.busy.isNone then { m with len := true } else m

/-- Condition of lines 190-192: busy object, length known or not streaming,
and no gzip/gunzip transform. -/
def lenRule2 (busy : Option BusyInfo) (hcl : Bool) : Bool :=
  match busy with
  | some b => (hcl || !b.doStream) && !b.doGzip && !b.doGunzip
  | none => false

/-- Rule at lines 190-193. -/
def ruleBusyLen (i : PrepIn) (m : ResMode) : ResMode :=
  if lenRule2 i.busy i.hContentLength then { m with len := true } else m

/-- Rule at lines 195-199: ESI mode clears `RES_LEN` and sets `RES_ESI`. -/
def ruleEsi (i : PrepIn) (m : ResMode) : ResMode :=
  if !i.disableEsi && i.esidata then { m with len := false, esi := true } else m

/-- Rule at lines 201-204: ESI child clears `RES_LEN`, sets `RES_ESI_CHILD`. -/
def ruleEsiChild (i : PrepIn) (m : ResMode) : ResMode :=
  if 0 < i.esiLevel then { m with len := false, esiChild := true } else m

/-- Rule at lines 206-214: gzip support on, object stored gzipped, client did
not accept gzip: clear `RES_LEN`, set `RES_GUNZIP`. -/
def ruleGunzip (i : PrepIn) (m : ResMode) : ResMode :=
  if i.gzipSupport && i.objGziped && !i.reqGzip then
    { m with len := false, gunzip := true }
  else m

/-- The framing state after the early rules, lines 185-214. -/
def earlyFraming (i : PrepIn) : ResMode :=
  ruleGunzip i (ruleEsiChild i (ruleEsi i (ruleBusyLen i (ruleNoBusy i emptyRes))))

/-- Condition of lines 217-218: object body empty and no streaming busy
object (an empty stored body can still grow while streaming). -/
def emptyNotStreaming (busy : Option BusyInfo) (objLen : Nat) : Bool :=
  objLen == 0 && (match busy with | none => true | some b => !b.doStream)

/-- The final framing block of `cnt_prepresp`, lines 216-232: when none of
`RES_LEN`, `RES_CHUNKED`, `RES_EOF` is set, pick exactly one of them (or
none for a bodiless response), forcing close in EOF mode.  Returns the new
mode and the possibly updated `sp->doclose`. -/
def lateFraming (m : ResMode) (busy : Option BusyInfo) (objLen : Nat)
    (wantbody : Bool) (protover : Nat) (doclose : Option String) :
    ResMode × Option String :=
  if !(m.len || m.chunked || m.eof) then
    if emptyNotStreaming busy objLen then ({ m with len := true }, doclose)
    else if !wantbody then (m, doclose)
    else if 11 ≤ protover then ({ m with chunked := true }, doclose)
    else ({ m with eof := true }, some "EOF mode")
  else (m, doclose)

/-- The complete framing decision of `cnt_prepresp`, lines 185-232. -/
def prepFraming (i : PrepIn) : ResMode × Option String :=
  lateFraming (earlyFraming i) i.busy i.objLen i.wantbody i.protover i.doclose

/-- At most one of the three body-framing bits is set. -/
def exclusiveFraming (m : ResMode) : Bool :=
  !(m.len && m.chunked) && !(m.len && m.eof) && !(m.chunked && m.eof)

theorem ruleNoBusy_chunked (i : PrepIn) (m : ResMode) :
    (ruleNoBusy i m).chunked = m.chunked := by
  unfold ruleNoBusy; split <;> rfl

theorem ruleBusyLen_chunked (i : PrepIn) (m : ResMode) :
    (ruleBusyLen i m).chunked = m.chunked := by
  unfold ruleBusyLen; split <;> rfl

theorem ruleEsi_chunked (i : PrepIn) (m : ResMode) :
    (ruleEsi i m).chunked = m.chunked := by
  unfold ruleEsi; split <;> rfl

theorem ruleEsiChild_chunked (i : PrepIn) (m : ResMode) :
    (ruleEsiChild i m).chunked = m.chunked := by
  unfold ruleEsiChild; split <;> rfl

theorem ruleGunzip_chunked (i : PrepIn) (m : ResMode) :
    (ruleGunzip i m).chunked = m.chunked := by
  unfold ruleGunzip; split <;> rfl

theorem ruleNoBusy_eof (i : PrepIn) (m : ResMode) :
    (ruleNoBusy i m).eof = m.eof := by
  unfold ruleNoBusy; split <;> rfl

theorem ruleBusyLen_eof (i : PrepIn) (m : ResMode) :
    (ruleBusyLen i m).eof = m.eof := by
  unfold ruleBusyLen; split <;> rfl

theorem ruleEsi_eof (i : PrepIn) (m : ResMode) :
    (ruleEsi i m).eof = m.eof := by
  unfold ruleEsi; split <;> rfl

theorem ruleEsiChild_eof (i : PrepIn) (m : ResMode) :
    (ruleEsiChild i m).eof = m.eof := by
  unfold ruleEsiChild; split <;> rfl

theorem ruleGunzip_eof (i : PrepIn) (m : ResMode) :
    (ruleGunzip i m).eof = m.eof := by
  unfold ruleGunzip; split <;> rfl

theorem earlyFraming_chunked (i : PrepIn) : (earlyFraming i).chunked = false := by
  unfold earlyFraming
  rw [ruleGunzip_chunked, ruleEsiChild_chunked, ruleEsi_chunked,
    ruleBusyLen_chunked, ruleNoBusy_chunked]
  rfl

theorem earlyFraming_eof (i : PrepIn) : (earlyFraming i).eof = false := by
  unfold earlyFraming
  rw [ruleGunzip_eof, ruleEsiChild_eof, ruleEsi_eof, ruleBusyLen_eof,
    ruleNoBusy_eof]
  rfl

theorem ruleNoBusy_gunzip (i : PrepIn) (m : ResMode) :
    (ruleNoBusy i m).gunzip = m.gunzip := by
  unfold ruleNoBusy; split <;> rfl

theorem ruleBusyLen_gunzip (i : PrepIn) (m : ResMode) :
    (ruleBusyLen i m).gunzip = m.gunzip := by
  unfold ruleBusyLen; split <;> rfl

theorem ruleEsi_gunzip (i : PrepIn) (m : ResMode) :
    (ruleEsi i m).gunzip = m.gunzip := by
  unfold ruleEsi; split <;> rfl

theorem ruleEsiChild_gunzip (i : PrepIn) (m : ResMode) :
    (ruleEsiChild i m).gunzip = m.gunzip := by
  unfold ruleEsiChild; split <;> rfl

theorem ruleGunzip_gunzip (i : PrepIn) (m : ResMode) :
    (ruleGunzip i m).gunzip = true → m.gunzip = true ∨ i.objGziped = true := by
  unfold ruleGunzip
  split_ifs with h
  · intro _
    right
    simp only [Bool.and_eq_true] at h
    exact h.1.2
  · exact fun hg => Or.inl hg

theorem earlyFraming_gunzip (i : PrepIn) :
    (earlyFraming i).gunzip = true → i.objGziped = true := by
  unfold earlyFraming
  intro h
  rcases ruleGunzip_gunzip i _ h with h2 | h2
  · rw [ruleEsiChild_gunzip, ruleEsi_gunzip, ruleBusyLen_gunzip,
      ruleNoBusy_gunzip] at h2
    exact absurd h2 (by simp [emptyRes])
  · exact h2

theorem lateFraming_gunzip (m : ResMode) (busy : Option BusyInfo) (objLen : Nat)
    (wantbody : Bool) (protover : Nat) (doclose : Option String) :
    (lateFraming m busy objLen wantbody protover doclose).1.gunzip = m.gunzip := by
  unfold lateFraming
  split_ifs <;> rfl

theorem lateFraming_exclusive (m : ResMode) (busy : Option BusyInfo)
    (objLen : Nat) (wantbody : Bool) (protover : Nat) (doclose : Option String)
    (hc : m.chunked = false) (he : m.eof = false) :
    exclusiveFraming (lateFraming m busy objLen wantbody protover doclose).1 = true := by
  unfold lateFraming
  split_ifs with h0 h1 h2 h3
  · simp [exclusiveFraming, hc, he]
  · simp [exclusiveFraming, hc, he]
  · have hl : m.len = false := by
      simp only [Bool.not_eq_true', Bool.or_eq_false_iff] at h0
      exact h0.1.1
    simp [exclusiveFraming, hl, he]
  · have hl : m.len = false := by
      simp only [Bool.not_eq_true', Bool.or_eq_false_iff] at h0
      exact h0.1.1
    simp [exclusiveFraming, hl, hc]
  · simp [exclusiveFraming, hc, he]

/-- Claim C3: for every input of the framing decision of `cnt_prepresp`, the
bits `RES_LEN`, `RES_CHUNKED` and `RES_EOF` are pairwise mutually exclusive
in the resulting `res_mode`, and whenever `RES_GUNZIP` is set the delivered
object was stored gzipped (`obj->gziped`). -/
theorem prepresp_framing_exclusive (i : PrepIn) :
    exclusiveFraming (prepFraming i).1 = true ∧
    ((prepFraming i).1.gunzip = true → i.objGziped = true) := by
  constructor
  · exact lateFraming_exclusive _ _ _ _ _ _ (earlyFraming_chunked i) (earlyFraming_eof i)
  · intro h
    rw [prepFraming, lateFraming_gunzip] at h
    exact earlyFraming_gunzip i h

/-- Witness for C3 at a concrete input: a streaming busy object and a gzipped
stored object delivered to a client that did not ask for gzip sets
`RES_GUNZIP`, and the conclusion gives back that the object was stored
gzipped. -/
theorem prepresp_framing_exclusive_witness :
    exclusiveFraming (prepFraming
      ⟨some ⟨true, false, false⟩, false, false, false, 0,
        true, true, false, 100, true, 11, none⟩).1 = true ∧
    PrepIn.objGziped
      ⟨some ⟨true, false, false⟩, false, false, false, 0,
        true, true, false, 100, true, 11, none⟩ = true :=
  ⟨(prepresp_framing_exclusive _).1,
    (prepresp_framing_exclusive _).2 (by decide)⟩

/-- Counterexample for claim C2: an empty object body does not by itself
select `RES_LEN`.  With a streaming busy object (`do_stream` set, unknown
content length), an empty (so far) object, a body-wanting HTTP/1.1 request
and none of the three framing bits set by the earlier rules, the code picks
`RES_CHUNKED`, not `RES_LEN` (lines 217-218 also require no streaming busy
object). -/
theorem prepresp_empty_body_cx :
    (prepFraming
      ⟨some ⟨true, false, false⟩, false, false, false, 0,
        false, false, false, 0, true, 11, none⟩).1.len = false ∧
    (prepFraming
      ⟨some ⟨true, false, false⟩, false, false, false, 0,
        false, false, false, 0, true, 11, none⟩).1.chunked = true := by
  decide

/-- Claim C2 (amended): in `cnt_prepresp`, when none of `RES_LEN`,
`RES_CHUNKED`, `RES_EOF` is set after the earlier rules: if the object body
is empty and there is no streaming busy object then `RES_LEN` is chosen;
otherwise if `wantbody` is false no framing bit is added; otherwise if the
client speaks HTTP/1.1 or later `RES_CHUNKED` is chosen; otherwise `RES_EOF`
is chosen and `doclose` is set to `EOF mode` (an HTTP/1.0 client with
unknown length gets EOF framing and a forced close). -/
theorem prepresp_late_framing (m : ResMode) (busy : Option BusyInfo)
    (objLen : Nat) (wantbody : Bool) (protover : Nat) (doclose : Option String)
    (h : (m.len || m.chunked || m.eof) = false) :
    (emptyNotStreaming busy objLen = true →
      lateFraming m busy objLen wantbody protover doclose =
        ({ m with len := true }, doclose)) ∧
    (emptyNotStreaming busy objLen = false → wantbody = false →
      lateFraming m busy objLen wantbody protover doclose = (m, doclose)) ∧
    (emptyNotStreaming busy objLen = false → wantbody = true → 11 ≤ protover →
      lateFraming m busy objLen wantbody protover doclose =
        ({ m with chunked := true }, doclose)) ∧
    (emptyNotStreaming busy objLen = false → wantbody = true → protover < 11 →
      lateFraming m busy objLen wantbody protover doclose =
        ({ m with eof := true }, some "EOF mode")) := by
  refine ⟨?_, ?_, ?_, ?_⟩
  · intro h1
    unfold lateFraming
    simp [h, h1]
  · intro h1 h2
    unfold lateFraming
    simp [h, h1, h2]
  · intro h1 h2 h3
    unfold lateFraming
    simp [h, h1, h2, h3]
  · intro h1 h2 h3
    have h4 : ¬ 11 ≤ protover := by omega
    unfold lateFraming
    simp [h, h1, h2, h4]

/-- Witness for C2 (amended) at a concrete input: HTTP/1.0 client, nonempty
body wanted, gets `RES_EOF` and a forced close. -/
theorem prepresp_late_framing_witness :
    lateFraming emptyRes none 5 true 10 none =
      ({ emptyRes with eof := true }, some "EOF mode") :=
  (prepresp_late_framing emptyRes none 5 true 10 none (by decide)).2.2.2
    (by decide) rfl (by decide)

/-! ## `cnt_wait` (lines 96-140) -/

/-- Linux `ECONNRESET`. -/
def ECONNRESET : Nat := 104

/-- Inputs of `cnt_wait`: the `HTC_Complete` status of the receive buffer
(1 complete, 0 incomplete, -1 read error, -2 overflow), the `session_linger`
parameter, the `poll` result, the `HTC_Rx` status after a successful poll,
the receive-buffer length (`Tlen(sp->htc->rxbuf)`), `errno`, and the session
fields the handler carries through.  The handler asserts on entry that the
worker holds no object, the session has no VCL, no ESI nesting and `xid` 0;
those preconditions appear as hypotheses of the theorems. -/
structure WaitIn where
  htcComplete : Int
  sessionLinger : Int
  pollResult : Int
  htcRx : Int
  rxbufLen : Nat
  errnoVal : Nat
  obj : Option Nat
  fd : Int
deriving DecidableEq, Repr

structure WaitOut where
  next : Next
  closeReason : Option String
  fd : Int
  obj : Option Nat
deriving DecidableEq, Repr

/-- The request status `cnt_wait` acts on (lines 111-119): the initial
`HTC_Complete` result, re-examined through `poll` and `HTC_Rx` when the
buffer was incomplete and `session_linger` is positive. -/
def waitStatus (i : WaitIn) : Int :=
  if i.htcComplete = 0 ∧ 0 < i.sessionLinger then
    (if i.pollResult = 0 then 0 else i.htcRx)
  else i.htcComplete

/-- The `cnt_wait` handler, lines 96-140.  Status 0 herds the session back to
the waiter (release); 1 proceeds to `start`; -2 closes `overflow`; -1 with an
empty buffer and clean `errno` closes `EOF`; anything else closes `error`;
all closes go to `done`. -/
def cnt_wait (i : WaitIn) : WaitOut :=
  if waitStatus i = 0 then ⟨Next.release, none, i.fd, i.obj⟩
  else if waitStatus i = 1 then ⟨Next.toStep Step.start, none, i.fd, i.obj⟩
  else if waitStatus i = -2 then
    ⟨Next.toStep Step.done, some "overflow", -1, i.obj⟩
  else if waitStatus i = -1 ∧ i.rxbufLen = 0 ∧
      (i.errnoVal = 0 ∨ i.errnoVal = ECONNRESET) then
    ⟨Next.toStep Step.done, some "EOF", -1, i.obj⟩
  else ⟨Next.toStep Step.done, some "error", -1, i.obj⟩

/-- Claim C7: the wait state resolves its receive-buffer check into exactly
these outcomes: a complete request goes to `start`; no data (status 0 after
the linger poll) parks the session and returns release; overflow closes with
reason `overflow` and goes to `done`; a read error on an empty buffer with
`errno` 0 or `ECONNRESET` closes with reason `EOF` and goes to `done`; any
other read error closes with reason `error` and goes to `done`. -/
theorem cnt_wait_outcomes (i : WaitIn) :
    (waitStatus i = 1 → (cnt_wait i).next = Next.toStep Step.start) ∧
    (waitStatus i = 0 → (cnt_wait i).next = Next.release) ∧
    (waitStatus i = -2 →
      (cnt_wait i).next = Next.toStep Step.done ∧
      (cnt_wait i).closeReason = some "overflow") ∧
    (waitStatus i = -1 → i.rxbufLen = 0 →
      (i.errnoVal = 0 ∨ i.errnoVal = ECONNRESET) →
      (cnt_wait i).next = Next.toStep Step.done ∧
      (cnt_wait i).closeReason = some "EOF") ∧
    (waitStatus i = -1 →
      ¬(i.rxbufLen = 0 ∧ (i.errnoVal = 0 ∨ i.errnoVal = ECONNRESET)) →
      (cnt_wait i).next = Next.toStep Step.done ∧
      (cnt_wait i).closeReason = some "error") := by
  refine ⟨?_, ?_, ?_, ?_, ?_⟩
  · intro h1
    unfold cnt_wait
    rw [h1]
    norm_num
  · intro h1
    unfold cnt_wait
    rw [h1]
    norm_num
  · intro h1
    unfold cnt_wait
    rw [h1]
    norm_num
  · intro h1 h2 h3
    unfold cnt_wait
    rw [h1]
    simp [h2, h3]
  · intro h1 h2
    unfold cnt_wait
    rw [h1]
    have h3 : ¬((-1 : Int) = -1 ∧ i.rxbufLen = 0 ∧
        (i.errnoVal = 0 ∨ i.errnoVal = ECONNRESET)) := by
      intro hx
      exact h2 hx.2
    norm_num
    simp only [true_and] at h3
    simp [h3]

/-- Witness for C7: a session whose receive buffer overflowed is closed with
reason `overflow` and sent to `done`. -/
theorem cnt_wait_outcomes_witness :
    (cnt_wait ⟨-2, 0, 0, 0, 0, 0, none, 4⟩).next = Next.toStep Step.done ∧
    (cnt_wait ⟨-2, 0, 0, 0, 0, 0, none, 4⟩).closeReason = some "overflow" :=
  (cnt_wait_outcomes ⟨-2, 0, 0, 0, 0, 0, none, 4⟩).2.2.1 rfl

/-! ## `cnt_start` (lines 1527-1604) -/

/-- Inputs of `cnt_start`: the global `xids` counter, the parse status of
`http_DissectRequest` (0 ok, else an HTTP status, 400 meaning unparseable),
the `Connection:` decision of `http_DoConnection`, the `Expect:` header if
present, and carried session fields.  Entry assertions: `restarts == 0`,
no object, no VCL, no ESI level. -/
structure StartIn where
  xids : Nat
  parseResult : Nat
  doConnection : Option String
  expectHdr : Option String
  doclose : Option String
  obj : Option Nat
  ws : Nat
  fd : Int
deriving DecidableEq, Repr

structure StartOut where
  next : Next
  xid : Nat
  closeReason : Option String
  errCode : Nat
  doclose : Option String
  expectHdr : Option String
  wrote100 : Bool
  http0Copied : Bool
  wsReq : Option Nat
  fd : Int
  obj : Option Nat
deriving DecidableEq, Repr

/-- The `cnt_start` handler, lines 1527-1604: assign `xid`, parse the
request; parse code 400 closes `junk` and goes to `done`; any other nonzero
parse code goes to `error` carrying the code; otherwise `doclose` comes from
the `Connection:` header, a malformed `Expect:` yields 417 via `error`, a
valid `Expect: 100-continue` writes the interim response and strips the
header; next state `recv`. -/
def cnt_start (i : StartIn) : StartOut :=
  let xid := i.xids + 1
  if i.parseResult = 400 then
    { next := Next.toStep Step.done, xid := xid, closeReason := some "junk",
      errCode := 0, doclose := i.doclose, expectHdr := i.expectHdr,
      wrote100 := false, http0Copied := false, wsReq := none, fd := -1,
      obj := i.obj }
  else if i.parseResult ≠ 0 then
    { next := Next.toStep Step.error, xid := xid, closeReason := none,
      errCode := i.parseResult, doclose := i.doclose, expectHdr := i.expectHdr,
      wrote100 := false, http0Copied := true, wsReq := some i.ws, fd := i.fd,
      obj := i.obj }
  else
    match i.expectHdr with
    | some p =>
      if p.toLower = "100-continue" then
        { next := Next.toStep Step.recv, xid := xid, closeReason := none,
          errCode := 0, doclose := i.doConnection, expectHdr := none,
          wrote100 := true, http0Copied := true, wsReq := some i.ws,
          fd := i.fd, obj := i.obj }
      else
        { next := Next.toStep Step.error, xid := xid, closeReason := none,
          errCode := 417, doclose := i.doConnection, expectHdr := i.expectHdr,
          wrote100 := false, http0Copied := true, wsReq := some i.ws,
          fd := i.fd, obj := i.obj }
    | none =>
      { next := Next.toStep Step.recv, xid := xid, closeReason := none,
        errCode := 0, doclose := i.doConnection, expectHdr := none,
        wrote100 := false, http0Copied := true, wsReq := some i.ws,
        fd := i.fd, obj := i.obj }

/-- Claim C8: in the start state, a parse result of 400 closes the session
with reason `junk` and goes to `done`; any other nonzero parse result stores
the code in `err_code` and goes to `error`. -/
theorem cnt_start_parse_errors (i : StartIn) :
    (i.parseResult = 400 →
      (cnt_start i).next = Next.toStep Step.done ∧
      (cnt_start i).closeReason = some "junk") ∧
    (i.parseResult ≠ 400 → i.parseResult ≠ 0 →
      (cnt_start i).next = Next.toStep Step.error ∧
      (cnt_start i).errCode = i.parseResult) := by
  constructor
  · intro h
    unfold cnt_start
    simp [h]
  · intro h1 h2
    unfold cnt_start
    simp [h1, h2]

/-- Witness for C8: a 412 parse failure goes to `error` carrying 412. -/
theorem cnt_start_parse_errors_witness :
    (cnt_start ⟨9, 412, none, none, none, none, 0, 4⟩).next =
      Next.toStep Step.error ∧
    (cnt_start ⟨9, 412, none, none, none, none, 0, 4⟩).errCode = 412 :=
  (cnt_start_parse_errors ⟨9, 412, none, none, none, none, 0, 4⟩).2
    (by decide) (by decide)

/-! ## `cnt_recv` (lines 1431-1513) -/

/-- Inputs of `cnt_recv`: the restart counter and `max_restarts` parameter,
the pending `err_code`, the result of the `vcl_recv` hook, gzip support and
whether the client accepts gzip (`RFC2616_Req_Gzip`), the request method,
the client `Accept-Encoding` header value, and the ESI level. -/
structure RecvIn where
  restarts : Nat
  maxRestarts : Nat
  errCode : Nat
  recvHandling : Handling
  gzipSupport : Bool
  reqGzip : Bool
  method : String
  acceptEncoding : Option String
  esiLevel : Nat
  wantbody : Bool
  sendbody : Bool
deriving DecidableEq, Repr

structure RecvOut where
  next : Next
  errCode : Nat
  wantbody : Bool
  sendbody : Bool
  acceptEncoding : Option String
  director : Option Nat
  digestComputed : Bool
deriving DecidableEq, Repr

/-- The `cnt_recv` handler, lines 1431-1513: select the first director, run
the `recv` hook; enforce the restart budget (lines 1459-1464: at or above
`max_restarts`, default `err_code` to 503 and go to `error`); normalise
`Accept-Encoding` when gzip is supported and the hook chose neither pipe nor
pass; hash; set `wantbody` from the method and clear `sendbody`; dispatch on
the hook result (pipe inside ESI is an unimplemented abort, an illegal hook
value aborts). -/
def cnt_recv (i : RecvIn) : RecvOut :=
  let rh := i.recvHandling
  if i.maxRestarts ≤ i.restarts then
    { next := Next.toStep Step.error,
      errCode := if i.errCode = 0 then 503 else i.errCode,
      wantbody := i.wantbody, sendbody := i.sendbody,
      acceptEncoding := i.acceptEncoding, director := some 0,
      digestComputed := false }
  else
    let ae :=
      if i.gzipSupport && !(rh == Handling.pipe) && !(rh == Handling.pass) then
        (if i.reqGzip then some "gzip" else none)
      else i.acceptEncoding
    let wb := !(i.method == "HEAD")
    let base : RecvOut :=
      { next := Next.abort, errCode := i.errCode, wantbody := wb,
        sendbody := false, acceptEncoding := ae, director := some 0,
        digestComputed := true }
    match rh with
    | Handling.lookup => { base with next := Next.toStep Step.lookup }
    | Handling.pipe =>
      if 0 < i.esiLevel then { base with next := Next.abort }
      else { base with next := Next.toStep Step.pipe }
    | Handling.pass => { base with next := Next.toStep Step.pass }
    | Handling.error => { base with next := Next.toStep Step.error }
    | _ => { base with next := Next.abort }

/-- Claim C4: `cnt_recv` enforces the restart budget.  Whenever the counter
has reached or exceeded `max_restarts`, the handler transitions to `error`,
setting `err_code` to 503 when none was set and preserving a pre-set nonzero
code; consequently any session that leaves `recv` for a state other than
`error` satisfies `restarts ≤ max_restarts` (indeed strictly below). -/
theorem cnt_recv_restart_budget (i : RecvIn) :
    (i.maxRestarts ≤ i.restarts →
      (cnt_recv i).next = Next.toStep Step.error ∧
      (i.errCode = 0 → (cnt_recv i).errCode = 503) ∧
      (i.errCode ≠ 0 → (cnt_recv i).errCode = i.errCode)) ∧
    (∀ s, (cnt_recv i).next = Next.toStep s → s ≠ Step.error →
      i.restarts ≤ i.maxRestarts) := by
  constructor
  · intro h
    unfold cnt_recv
    refine ⟨by simp [h], ?_, ?_⟩
    · intro h0
      simp [h, h0]
    · intro h0
      simp [h, h0]
  · intro s hs hne
    by_cases h : i.maxRestarts ≤ i.restarts
    · exfalso
      apply hne
      unfold cnt_recv at hs
      simp only [h, if_true] at hs
      cases hs
      rfl
    · omega

/-- Witness for C4: a session at the restart cap with no pending error code
is sent to `error` with 503. -/
theorem cnt_recv_restart_budget_witness :
    (cnt_recv ⟨4, 4, 0, Handling.lookup, true, true, "GET", none, 0, true,
      false⟩).next = Next.toStep Step.error ∧
    (cnt_recv ⟨4, 4, 0, Handling.lookup, true, true, "GET", none, 0, true,
      false⟩).errCode = 503 := by
  have h := cnt_recv_restart_budget
    ⟨4, 4, 0, Handling.lookup, true, true, "GET", none, 0, true, false⟩
  exact ⟨(h.1 (by decide)).1, (h.1 (by decide)).2.1 rfl⟩

/-! ## `cnt_deliver` (lines 292-312) and `cnt_pipe` (lines 1383-1409) -/

/-- Session fields `cnt_deliver` reads or writes; `ws`/`wsSes` are the
current workspace pointer and the session watermark (carried through,
untouched by delivery). -/
structure DeliverIn where
  obj : Option Nat
  busyobj : Option Nat
  xid : Nat
  ws : Nat
  wsSes : Nat
deriving DecidableEq, Repr

structure DeliverOut where
  next : Next
  obj : Option Nat
  busyobj : Option Nat
  xid : Nat
  director : Option Nat
  restarts : Nat
  ws : Nat
  wsSes : Nat
deriving DecidableEq, Repr

/-- The `cnt_deliver` handler, lines 292-312: clear director and restart
counter, write the stored object body, release the object reference
(`HSH_Deref` nulls `wrk->obj`), go to `done`.  The busy object, `xid` and
workspace are left as they are. -/
def cnt_deliver (i : DeliverIn) : DeliverOut :=
  { next := Next.toStep Step.done, obj := none, busyobj := i.busyobj,
    xid := i.xid, director := none, restarts := 0, ws := i.ws,
    wsSes := i.wsSes }

structure PipeIn where
  handling : Handling
  obj : Option Nat
deriving DecidableEq, Repr

structure PipeOut where
  next : Next
  obj : Option Nat
  piped : Bool
deriving DecidableEq, Repr

/-- The `cnt_pipe` handler, lines 1383-1409: the `pipe` hook returning
`error` is unimplemented (`INCOMPL`), anything other than `pipe` aborts the
assertion; otherwise the pipe subsystem shuttles bytes and the session goes
to `done`. -/
def cnt_pipe (i : PipeIn) : PipeOut :=
  if i.handling = Handling.error then ⟨Next.abort, i.obj, false⟩
  else if i.handling = Handling.pipe then ⟨Next.toStep Step.done, i.obj, true⟩
  else ⟨Next.abort, i.obj, false⟩

/-! ## `cnt_streambody` (lines 922-984) -/

/-- Inputs of `cnt_streambody`: the `FetchBody` result (0 = success), whether
the object has an objcore (a regular cache object rather than a pass
object), and carried session fields. -/
structure StreamIn where
  fetchBodyResult : Int
  objcore : Bool
  doclose : Option String
  resGunzip : Bool
  obj : Option Nat
deriving DecidableEq, Repr

structure StreamOut where
  next : Next
  doclose : Option String
  obj : Option Nat
  director : Option Nat
  restarts : Nat
  expInserted : Bool
  unbusied : Bool
  streamStarted : Bool
  streamEnded : Bool
deriving DecidableEq, Repr

/-- The `cnt_streambody` handler, lines 922-984: start the stream, fetch the
body while delivering, then: on success with an objcore, insert into expiry
and unbusy; otherwise (fetch failure, or a pass object) set
`doclose = "Stream error"`.  In every case the stream is ended, the object
reference released and the session goes to `done`. -/
def cnt_streambody (i : StreamIn) : StreamOut :=
  let ok := (i.fetchBodyResult == 0) && i.objcore
  { next := Next.toStep Step.done,
    doclose := if ok then i.doclose else some "Stream error",
    obj := none, director := none, restarts := 0,
    expInserted := ok, unbusied := ok,
    streamStarted := true, streamEnded := true }

/-- Claim C9: in `cnt_streambody`, any failure of the body fetch sets
`doclose` to `Stream error`, and in every case (success or failure) the
stream is ended, the object reference is released, and the session proceeds
to `done`. -/
theorem cnt_streambody_failure (i : StreamIn) :
    (i.fetchBodyResult ≠ 0 →
      (cnt_streambody i).doclose = some "Stream error") ∧
    (cnt_streambody i).streamEnded = true ∧
    (cnt_streambody i).obj = none ∧
    (cnt_streambody i).next = Next.toStep Step.done := by
  refine ⟨?_, rfl, rfl, rfl⟩
  intro h
  unfold cnt_streambody
  have hb : (i.fetchBodyResult == 0) = false := by
    simpa using h
  simp [hb]

/-- Witness for C9: a failed streaming fetch of a cacheable object. -/
theorem cnt_streambody_failure_witness :
    (cnt_streambody ⟨-1, true, none, false, some 1⟩).doclose =
      some "Stream error" ∧
    (cnt_streambody ⟨-1, true, none, false, some 1⟩).next =
      Next.toStep Step.done :=
  ⟨(cnt_streambody_failure ⟨-1, true, none, false, some 1⟩).1 (by decide),
    (cnt_streambody_failure ⟨-1, true, none, false, some 1⟩).2.2.2⟩

/-! ## `cnt_error` (lines 449-524) -/

/-- Inputs of `cnt_error`: the object already on the worker if any, the
outcomes of the two storage allocation attempts (preferred, then transient),
the pending error code and reason, the `vcl_error` hook result, and the
restart budget. -/
structure ErrorIn where
  obj : Option Nat
  allocOk : Bool
  transientOk : Bool
  errCode : Nat
  errReason : Option String
  handling : Handling
  restarts : Nat
  maxRestarts : Nat
  doclose : Option String
  wantbody : Bool
  director : Option Nat
deriving DecidableEq, Repr

structure ErrorOut where
  next : Next
  obj : Option Nat
  doclose : Option String
  wantbody : Bool
  errCode : Nat
  errReason : Option String
  restarts : Nat
  director : Option Nat
  status : Nat
deriving DecidableEq, Repr

/-- The object `cnt_error` works on: the one already held, else the result
of the two allocation attempts (lines 460-468). -/
def errObj (i : ErrorIn) : Option Nat :=
  match i.obj with
  | some o => some o
  | none =>
    if i.allocOk then some 0
    else if i.transientOk then some 0
    else none

/-- The status clamp of lines 487-488. -/
def errStatus (i : ErrorIn) : Nat :=
  if i.errCode < 100 ∨ 999 < i.errCode then 501 else i.errCode

/-- The `cnt_error` handler, lines 449-524: allocate a synthetic object
(falling back to transient storage; a second failure closes
`Out of objects` and goes to `done`); clamp the status to 100-999 else 501;
`restart` within budget drops the object and re-enters `recv`; otherwise the
response is delivered through `prepresp` with a forced close. -/
def cnt_error (i : ErrorIn) : ErrorOut :=
  if errObj i = none then
    { next := Next.toStep Step.done, obj := none,
      doclose := some "Out of objects", wantbody := i.wantbody,
      errCode := i.errCode, errReason := i.errReason, restarts := i.restarts,
      director := none, status := 0 }
  else if i.handling = Handling.restart ∧ i.restarts < i.maxRestarts then
    { next := Next.toStep Step.recv, obj := none, doclose := i.doclose,
      wantbody := i.wantbody, errCode := errStatus i, errReason := i.errReason,
      restarts := i.restarts + 1, director := none, status := errStatus i }
  else if
      (if i.handling = Handling.restart then Handling.deliver else i.handling)
        = Handling.deliver then
    { next := Next.toStep Step.prepresp, obj := errObj i,
      doclose := some "error", wantbody := true, errCode := 0,
      errReason := none, restarts := i.restarts, director := i.director,
      status := errStatus i }
  else
    { next := Next.abort, obj := errObj i, doclose := i.doclose,
      wantbody := i.wantbody, errCode := errStatus i, errReason := i.errReason,
      restarts := i.restarts, director := i.director, status := errStatus i }

/-! ## `cnt_done` (lines 328-432) -/

/-- Log records emitted by `cnt_done` (`SLT_Debug`, `SLT_Length`,
`SLT_ReqEnd` with fields xid, t_req, t_end, dh, dp, da). -/
inductive LogRec where
  | debug
  | length (bytes : Nat)
  | reqEnd (xid : Nat) (tReq tEnd dh dp da : Int)
deriving DecidableEq, Repr

/-- Inputs of `cnt_done`.  Timestamps are `Option Int` with `none` standing
for NAN; `tEnd` is the wall-clock reading `W_TIM_real` returns at line 361;
`htcReinit` is the `HTC_Reinit` status; `ws`/`wsSes` are the workspace
pointer and the session watermark.  Entry assertions: `wrk->obj` and
`wrk->vbc` are null. -/
structure DoneIn where
  obj : Option Nat
  vbc : Option Nat
  busyobj : Option Nat
  esiLevel : Nat
  xid : Nat
  tReq : Option Int
  tResp : Option Int
  tOpen : Int
  tEnd : Int
  fd : Int
  reqBodybytes : Nat
  doclose : Option String
  ws : Nat
  wsSes : Nat
  htcReinit : Int
  rxbufLen : Nat
  sessionLinger : Int
deriving DecidableEq, Repr

structure DoneOut where
  next : Next
  deleted : Bool
  busyobj : Option Nat
  xid : Nat
  tReq : Option Int
  tResp : Option Int
  tOpen : Int
  ws : Nat
  fd : Int
  closeReason : Option String
  logs : List LogRec
  director : Option Nat
  restarts : Nat
  reqBodybytes : Nat
deriving DecidableEq, Repr

/-- The timing-log block of `cnt_done`, lines 361-379: with `xid == 0` the
response timestamp is set to `t_end` and only the debug record is written;
otherwise the `Length` record (when the socket is open) and the `ReqEnd`
record with fields xid, t_req, t_end, dh, dp, da are written.  Returns the
value of `t_resp` after the block and the records written. -/
def doneLog (xid : Nat) (tReq tResp : Option Int) (tOpen tEnd : Int)
    (fd : Int) (bodybytes : Nat) : Option Int × List LogRec :=
  if xid = 0 then (some tEnd, [LogRec.debug])
  else
    let tr := tReq.getD 0
    let ts := tResp.getD 0
    (tResp,
      LogRec.debug ::
        ((if 0 ≤ fd then [LogRec.length bodybytes] else []) ++
          [LogRec.reqEnd xid tr tEnd (tr - tOpen) (ts - tr) (tEnd - ts)]))

/-- The `cnt_done` handler, lines 328-432: clear director, restarts and the
busy object; inside an ESI sub-request return release without touching the
session; otherwise log, zero `xid`, reset the per-request timestamps and
flags, close the connection when `doclose` is set, delete the session when
the socket is gone, else reset the workspace to the session watermark and
recycle: pipelined request to `start`, partial data or positive linger to
`wait`, otherwise herd to the waiter (release).  `doneClosing`, `doneFd`,
`doneReason` and `doneRecords` below are its pieces, `cnt_done` the
handler. -/
def doneClosing (i : DoneIn) : Bool :=
  decide (0 ≤ i.fd) && i.doclose.isSome

/-- The file descriptor after the optional `SES_Close` of lines 392-399. -/
def doneFd (i : DoneIn) : Int :=
  if doneClosing i then -1 else i.fd

/-- The close reason recorded by the optional `SES_Close`. -/
def doneReason (i : DoneIn) : Option String :=
  if doneClosing i then i.doclose else none

/-- The records `cnt_done` writes in its non-ESI path. -/
def doneRecords (i : DoneIn) : List LogRec :=
  (doneLog i.xid i.tReq i.tResp i.tOpen i.tEnd i.fd i.reqBodybytes).2

def cnt_done (i : DoneIn) : DoneOut :=
  if 0 < i.esiLevel then
    { next := Next.release, deleted := false, busyobj := none, xid := i.xid,
      tReq := i.tReq, tResp := i.tResp, tOpen := i.tOpen, ws := i.ws,
      fd := i.fd, closeReason := none, logs := [], director := none,
      restarts := 0, reqBodybytes := i.reqBodybytes }
  else if doneFd i < 0 then
    { next := Next.release, deleted := true, busyobj := none, xid := 0,
      tReq := none, tResp := none, tOpen := i.tEnd, ws := i.ws,
      fd := doneFd i, closeReason := doneReason i, logs := doneRecords i,
      director := none, restarts := 0, reqBodybytes := 0 }
  else if i.htcReinit = 1 then
    { next := Next.toStep Step.start, deleted := false, busyobj := none,
      xid := 0, tReq := none, tResp := none, tOpen := i.tEnd, ws := i.wsSes,
      fd := doneFd i, closeReason := doneReason i, logs := doneRecords i,
      director := none, restarts := 0, reqBodybytes := 0 }
  else if 0 < i.rxbufLen then
    { next := Next.toStep Step.wait, deleted := false, busyobj := none,
      xid := 0, tReq := none, tResp := none, tOpen := i.tEnd, ws := i.wsSes,
      fd := doneFd i, closeReason := doneReason i, logs := doneRecords i,
      director := none, restarts := 0, reqBodybytes := 0 }
  else if 0 < i.sessionLinger then
    { next := Next.toStep Step.wait, deleted := false, busyobj := none,
      xid := 0, tReq := none, tResp := none, tOpen := i.tEnd, ws := i.wsSes,
      fd := doneFd i, closeReason := doneReason i, logs := doneRecords i,
      director := none, restarts := 0, reqBodybytes := 0 }
  else
    { next := Next.release, deleted := false, busyobj := none, xid := 0,
      tReq := none, tResp := none, tOpen := i.tEnd, ws := i.wsSes,
      fd := doneFd i, closeReason := doneReason i, logs := doneRecords i,
      director := none, restarts := 0, reqBodybytes := 0 }

theorem cnt_done_logs (i : DoneIn) (h : i.esiLevel = 0) :
    (cnt_done i).logs =
      (doneLog i.xid i.tReq i.tResp i.tOpen i.tEnd i.fd i.reqBodybytes).2 := by
  unfold cnt_done
  rw [h]
  simp only [Nat.lt_irrefl, if_false]
  split_ifs <;> rfl

theorem cnt_done_xid (i : DoneIn) (h : i.esiLevel = 0) :
    (cnt_done i).xid = 0 := by
  unfold cnt_done
  rw [h]
  simp only [Nat.lt_irrefl, if_false]
  split_ifs <;> rfl

theorem cnt_done_busyobj (i : DoneIn) : (cnt_done i).busyobj = none := by
  unfold cnt_done
  split_ifs <;> rfl

theorem cnt_done_ws (i : DoneIn) (h : i.esiLevel = 0)
    (hd : (cnt_done i).deleted = false) : (cnt_done i).ws = i.wsSes := by
  unfold cnt_done at hd ⊢
  rw [h] at hd ⊢
  simp only [Nat.lt_irrefl, if_false] at hd ⊢
  split_ifs at hd ⊢ <;> rfl

/-- Claim C10 (implicit): when `cnt_done` runs outside an ESI sub-request
for a session whose `xid` is 0 (the request never got an id, e.g. the
connection failed in `wait` before parsing), no `ReqEnd` and no `Length`
record is emitted (only the debug record) and `t_resp` is set equal to
`t_end`; a `ReqEnd` record is emitted only when `xid` is nonzero. -/
theorem cnt_done_xid_zero_logging (i : DoneIn) (h : i.esiLevel = 0) :
    (i.xid = 0 →
      (cnt_done i).logs = [LogRec.debug] ∧
      (doneLog i.xid i.tReq i.tResp i.tOpen i.tEnd i.fd i.reqBodybytes).1 =
        some i.tEnd) ∧
    (∀ x tr te dh dp da,
      LogRec.reqEnd x tr te dh dp da ∈ (cnt_done i).logs → i.xid ≠ 0) := by
  constructor
  · intro hx
    rw [cnt_done_logs i h]
    unfold doneLog
    simp [hx]
  · intro x tr te dh dp da hmem hx
    rw [cnt_done_logs i h] at hmem
    unfold doneLog at hmem
    simp [hx] at hmem

/-- Witness for C10: a session with `xid` 0 entering `done` logs only the
debug record, and the `t_resp` store picks up `t_end`. -/
theorem cnt_done_xid_zero_logging_witness :
    (cnt_done ⟨none, none, some 1, 0, 0, none, none, 5, 9, 4, 0, none,
      20, 10, 0, 0, 0⟩).logs = [LogRec.debug] ∧
    (doneLog 0 none none 5 9 4 0).1 = some 9 :=
  (cnt_done_xid_zero_logging
    ⟨none, none, some 1, 0, 0, none, none, 5, 9, 4, 0, none,
      20, 10, 0, 0, 0⟩ rfl).1 rfl

/-- Counterexample for claim C5: entries to `done` do not satisfy
`xid == 0`, `busyobj == null` or a workspace at the session watermark.
`cnt_deliver` (a normal delivery) enters `done` with the request `xid`
still assigned, the busy object still attached and the workspace above the
session watermark; `cnt_done` itself performs those resets. -/
theorem done_entry_cx :
    (cnt_deliver ⟨some 1, some 2, 7, 10, 3⟩).next = Next.toStep Step.done ∧
    (cnt_deliver ⟨some 1, some 2, 7, 10, 3⟩).xid ≠ 0 ∧
    (cnt_deliver ⟨some 1, some 2, 7, 10, 3⟩).busyobj ≠ none ∧
    (cnt_deliver ⟨some 1, some 2, 7, 10, 3⟩).ws ≠
      (cnt_deliver ⟨some 1, some 2, 7, 10, 3⟩).wsSes := by
  decide

/-- Claim C5 (amended): at every entry to `done` the worker holds no object
reference (each handler that transitions to `done` has released or never
held it); the busy object, `xid` and workspace are not reset at entry but by
`cnt_done` itself: it clears `busyobj` always, and outside an ESI
sub-request zeroes `xid` and resets the workspace to the session watermark
whenever the session is not deleted. -/
theorem done_entry_invariant :
    (∀ i : WaitIn, i.obj = none → (cnt_wait i).obj = none) ∧
    (∀ i : StartIn, i.obj = none → (cnt_start i).obj = none) ∧
    (∀ i : PipeIn, i.obj = none → (cnt_pipe i).obj = none) ∧
    (∀ i : DeliverIn,
      (cnt_deliver i).next = Next.toStep Step.done ∧ (cnt_deliver i).obj = none) ∧
    (∀ i : StreamIn,
      (cnt_streambody i).next = Next.toStep Step.done ∧
      (cnt_streambody i).obj = none) ∧
    (∀ i : ErrorIn,
      (cnt_error i).next = Next.toStep Step.done → (cnt_error i).obj = none) ∧
    (∀ i : DoneIn, (cnt_done i).busyobj = none) ∧
    (∀ i : DoneIn, i.esiLevel = 0 → (cnt_done i).xid = 0) ∧
    (∀ i : DoneIn, i.esiLevel = 0 → (cnt_done i).deleted = false →
      (cnt_done i).ws = i.wsSes) := by
  refine ⟨?_, ?_, ?_, ?_, ?_, ?_, cnt_done_busyobj, cnt_done_xid, cnt_done_ws⟩
  · intro i h
    unfold cnt_wait
    split_ifs <;> exact h
  · intro i h
    unfold cnt_start
    split_ifs
    · exact h
    · exact h
    · split
      · split_ifs <;> exact h
      · exact h
  · intro i h
    unfold cnt_pipe
    split_ifs <;> exact h
  · intro i
    exact ⟨rfl, rfl⟩
  · intro i
    exact ⟨rfl, rfl⟩
  · intro i hn
    unfold cnt_error at hn ⊢
    split_ifs at hn ⊢ <;> first | rfl | simp at hn

/-- Witness for C5 (amended): instantiated at a concrete `cnt_done` run that
recycles the connection: the busy object is cleared, `xid` zeroed and the
workspace brought back to the session watermark. -/
theorem done_entry_invariant_witness :
    (cnt_done ⟨none, none, some 3, 0, 7, some 1, some 2, 0, 9, 4, 0, none,
      20, 10, 1, 0, 0⟩).busyobj = none ∧
    (cnt_done ⟨none, none, some 3, 0, 7, some 1, some 2, 0, 9, 4, 0, none,
      20, 10, 1, 0, 0⟩).xid = 0 ∧
    (cnt_done ⟨none, none, some 3, 0, 7, some 1, some 2, 0, 9, 4, 0, none,
      20, 10, 1, 0, 0⟩).ws = 10 := by
  refine ⟨done_entry_invariant.2.2.2.2.2.2.1 _,
    done_entry_invariant.2.2.2.2.2.2.2.1 _ rfl,
    done_entry_invariant.2.2.2.2.2.2.2.2 _ rfl ?_⟩
  decide

end CacheCenter
